import Mathlib

/-! Verification development for the `ModflowStr` package of flopy
(`flopy/modflow/mfstr.py`): a shallow embedding of `ModflowStr.load`,
`ModflowStr.write_file`, `ModflowStr.get_empty` and
`ModflowStr.get_default_dtype`, together with theorems checking the
natural-language specification of the transient boundary-list engine.

The file is read line by line exactly as the Python code does; lines are
modelled as `List String` (each entry is one line without its trailing
newline, `readline` at end of file yields the empty string).  Machine
numbers are modelled as `Int` and exact decimals `Dec` (the claims checked
here do not depend on float32 rounding).  Fallible Python code returns
`Except PyErr`.  Components of the repository that the analyzed file calls
but that are not part of `src/` (`Package.add_to_dtype` from flopy/mbase.py,
`mflist.write_transient` from flopy/utils/util_list.py) are modelled from
the specification and carry a doc comment saying so.  The names `os` (used
at line 349) and `mfparbc` (called at line 281) are referenced by the
source but never imported by the module — it imports only `sys`, `numpy`,
`Package` and `mflist` — so those call sites raise `NameError`, and the
embedding records exactly that. -/

set_option maxRecDepth 8000
set_option synthInstance.maxSize 1024

/-- Failure kinds of the embedded code.  The first group mirrors Python
runtime errors raised while executing `mfstr.py`; the last four mirror the
error taxonomy of the specification (§7) for the components that are
modelled from the spec. -/
inductive PyErr where
  | indexError
  | valueError
  | typeError
  | keyError (nm : String)
  | unboundLocal (nm : String)
  | nameError (nm : String)
  | assertionError (msg : String)
  | exception (msg : String)
  | lookupError (nm : String)
  | schemaError (nm : String)
  | formatError (msg : String)
  | recordParseError
  deriving DecidableEq, Repr

instance {ε α : Type} [DecidableEq ε] [DecidableEq α] : DecidableEq (Except ε α) := fun x y =>
  match x, y with
  | .ok a, .ok b =>
    if h : a = b then .isTrue (h ▸ rfl) else .isFalse (fun hh => h (Except.ok.inj hh))
  | .error a, .error b =>
    if h : a = b then .isTrue (h ▸ rfl) else .isFalse (fun hh => h (Except.error.inj hh))
  | .ok _, .error _ => .isFalse (fun hh => Except.noConfusion hh)
  | .error _, .ok _ => .isFalse (fun hh => Except.noConfusion hh)

/-- Whitespace characters recognized by Python's `str.split()` / `str.strip()`
(the subset that can occur in the analyzed line-based files). -/
def isWs (c : Char) : Bool := c = ' ' || c = '\t' || c = '\n' || c = '\r'

/-- Decimal digit test. -/
def isDigitCh (c : Char) : Bool := decide ('0' ≤ c ∧ c ≤ '9')

/-- ASCII lower-casing of one character, as `str.lower()` does. -/
def lowerCh (c : Char) : Char :=
  if 'A' ≤ c ∧ c ≤ 'Z' then Char.ofNat (c.toNat + 32) else c

/-- Python `str.strip()`. -/
def pyStrip (s : String) : String :=
  String.mk (((s.data.dropWhile isWs).reverse.dropWhile isWs).reverse)

/-- One step of whitespace tokenization (helper for `pySplitWs`). -/
def splitWsFold (c : Char) (acc : List (List Char)) : List (List Char) :=
  if isWs c then [] :: acc
  else
    match acc with
    | [] => [[c]]
    | t :: ts => (c :: t) :: ts

/-- Python `str.split()` with no argument: split on runs of whitespace,
dropping empty tokens. -/
def pySplitWs (s : String) : List String :=
  ((s.data.foldr splitWsFold []).filter (fun t => !t.isEmpty)).map String.mk

/-- Python `str.lower()` (ASCII). -/
def pyLowerStr (s : String) : String := String.mk (s.data.map lowerCh)

/-- Does `pat` occur as a contiguous run inside the character list? -/
def subSearch (pat : List Char) : List Char → Bool
  | [] => pat.isEmpty
  | c :: cs => List.isPrefixOf pat (c :: cs) || subSearch pat cs

/-- Python's substring containment test `pat in s`. -/
def containsSub (s pat : String) : Bool := subSearch pat.data s.data

/-- Accumulate the value of a digit list. -/
def digitsToNat : List Char → Nat → Nat
  | [], acc => acc
  | c :: cs, acc => digitsToNat cs (acc * 10 + (c.toNat - '0'.toNat))

/-- All characters are decimal digits. -/
def allDigits (cs : List Char) : Bool := cs.all isDigitCh

/-- Python `int(token)` on an already stripped token: optional sign followed
by a nonempty digit run. -/
def pyIntRaw : List Char → Option Int
  | '-' :: rest =>
      if !rest.isEmpty && allDigits rest then some (-(digitsToNat rest 0 : Int)) else none
  | '+' :: rest =>
      if !rest.isEmpty && allDigits rest then some ((digitsToNat rest 0 : Int)) else none
  | cs =>
      if !cs.isEmpty && allDigits cs then some ((digitsToNat cs 0 : Int)) else none

/-- Python `int(s)` (strips surrounding whitespace, `ValueError` on bad
input). -/
def pyIntE (s : String) : Except PyErr Int :=
  match pyIntRaw (pyStrip s).data with
  | some z => .ok z
  | none => .error .valueError

/-- An exact decimal number `num / 10 ^ e10`.  The numeric values handled
by the analyzed code are decimal literals from text files; representing
them exactly avoids both float32 rounding (irrelevant to the claims) and
non-computing rational normalization.  Parsed values are kept in the
canonical form produced by `Dec.norm` (numerator not divisible by ten
unless the exponent is zero), so structural equality of parsed values
coincides with numeric equality. -/
structure Dec where
  num : Int
  e10 : Nat
  deriving DecidableEq, Repr

/-- Canonicalize a decimal: strip factors of ten from the numerator into
the exponent. -/
def Dec.norm : Int → Nat → Dec
  | n, 0 => ⟨n, 0⟩
  | n, e + 1 => if n % 10 = 0 then Dec.norm (n / 10) e else ⟨n, e + 1⟩

/-- Build the decimal `m * 10 ^ ex` from a digit mantissa and a power. -/
def decOfMantissa (m : Nat) (ex : Int) : Dec :=
  match ex with
  | .ofNat k => ⟨(m : Int) * (10 : Int) ^ k, 0⟩
  | .negSucc k => Dec.norm (m : Int) (k + 1)

/-- Negation of a decimal (canonical form is preserved). -/
def Dec.neg (d : Dec) : Dec := ⟨-d.num, d.e10⟩

/-- Subtract one from a decimal: `(num - 10 ^ e10) / 10 ^ e10`.  No
re-canonicalization is performed (subtracting `10 ^ e10` never changes the
numerator's divisibility by ten), so this is an exact structural inverse
of `Dec.add1`. -/
def Dec.sub1 (d : Dec) : Dec := ⟨d.num - (10 : Int) ^ d.e10, d.e10⟩

/-- Add one to a decimal (exact structural inverse of `Dec.sub1`). -/
def Dec.add1 (d : Dec) : Dec := ⟨d.num + (10 : Int) ^ d.e10, d.e10⟩

/-- Unsigned part of Python `float(token)`: digits, optional fraction,
optional exponent.  The special forms (`inf`, `nan`, underscores) do not
occur in the analyzed inputs and are not modelled. -/
def pyFloatCore (cs : List Char) : Option Dec :=
  let p1 := cs.span isDigitCh
  let pr : Option (List Char × List Char) :=
    match p1.2 with
    | '.' :: t => some (t.span isDigitCh)
    | _ => none
  let ip := p1.1
  let fp := match pr with | some p => p.1 | none => []
  let r2 := match pr with | some p => p.2 | none => p1.2
  if ip.isEmpty && fp.isEmpty then none
  else
    let m : Nat := digitsToNat (ip ++ fp) 0
    let scale : Int := (fp.length : Int)
    match r2 with
    | [] => some (decOfMantissa m (-scale))
    | 'e' :: t => (pyIntRaw t).map (fun e => decOfMantissa m (e - scale))
    | 'E' :: t => (pyIntRaw t).map (fun e => decOfMantissa m (e - scale))
    | _ => none

/-- Python `float(token)` on an already stripped token. -/
def pyFloatRaw : List Char → Option Dec
  | '-' :: rest => (pyFloatCore rest).map Dec.neg
  | '+' :: rest => pyFloatCore rest
  | cs => pyFloatCore cs

/-- Python `float(s)` with stripping, `ValueError` on bad input. -/
def pyFloatE (s : String) : Except PyErr Dec :=
  match pyFloatRaw (pyStrip s).data with
  | some q => .ok q
  | none => .error .valueError

/-- Python `lst[i]`: `IndexError` when out of range. -/
def tokAt (ts : List String) (i : Nat) : Except PyErr String :=
  match ts.get? i with
  | some t => .ok t
  | none => .error .indexError

/-- Reading a local variable that may not have been assigned yet:
Python raises `UnboundLocalError` when it is unset. -/
def pyLocal (x : Option α) (nm : String) : Except PyErr α :=
  match x with
  | some v => .ok v
  | none => .error (.unboundLocal nm)

/-- Field kinds of the numpy record dtypes used by the package. -/
inductive FType where
  | int
  | f32
  deriving DecidableEq, Repr

/-- One field value: integer fields hold `Int`, float32 fields hold an
exact decimal. -/
inductive FVal where
  | iv (z : Int)
  | fv (q : Dec)
  deriving DecidableEq, Repr

/-- Subtract one from a field value (numpy `arr[name] -= 1`). -/
def FVal.sub1 : FVal → FVal
  | .iv z => .iv (z - 1)
  | .fv q => .fv q.sub1

/-- Add one to a field value (the writer's re-application of the one-based
convention). -/
def FVal.add1 : FVal → FVal
  | .iv z => .iv (z + 1)
  | .fv q => .fv q.add1

/-- A numpy structured dtype: ordered field names with their kinds. -/
abbrev Dtype := List (String × FType)

/-- A numpy recarray at the value level: its dtype and its rows (each row
has exactly one value per dtype field). -/
structure RecArray where
  dtype : Dtype
  rows : List (List FVal)
  deriving DecidableEq, Repr

/-- `np.recarray.copy` — recarrays are values in this embedding. -/
def copyRA (a : RecArray) : RecArray := a

/-- What `load` stores in `stress_period_data[iper]` (mfstr.py lines
410-413): the bare integer `itmp` when `bnd_output is None`, otherwise the
record array. -/
inductive PeriodData where
  | count (n : Int)
  | recs (a : RecArray)
  deriving DecidableEq, Repr

/-- Update one position of a list. -/
def updAt : List α → Nat → (α → α) → List α
  | [], _, _ => []
  | x :: xs, 0, f => f x :: xs
  | x :: xs, n + 1, f => x :: updAt xs n f

/-- Index of a field name in a dtype (numpy field lookup). -/
def fieldIdx (d : Dtype) (nm : String) : Option Nat :=
  match d with
  | [] => none
  | p :: rest => if p.1 = nm then some 0 else (fieldIdx rest nm).map (fun i => i + 1)

/-- The column of values stored at position `i` of every row. -/
def colAt (a : RecArray) (i : Nat) : List (Option FVal) :=
  a.rows.map (fun r => r.get? i)

/-- numpy conversion of one string token into one field of the given kind
(`ValueError` on failure, as when assigning a tuple of strings into a
recarray row). -/
def convertTok (ty : FType) (tok : String) : Except PyErr FVal :=
  match ty with
  | .int =>
    match pyIntRaw (pyStrip tok).data with
    | some z => .ok (.iv z)
    | none => .error .valueError
  | .f32 =>
    match pyFloatRaw (pyStrip tok).data with
    | some q => .ok (.fv q)
    | none => .error .valueError

/-- Convert one token per dtype field; the counts must agree. -/
def convertRow : Dtype → List String → Except PyErr (List FVal)
  | [], [] => .ok []
  | (_, ty) :: ds, tok :: ts =>
    match convertTok ty tok with
    | .error e => .error e
    | .ok v =>
      match convertRow ds ts with
      | .error e => .error e
      | .ok vs => .ok (v :: vs)
  | _, _ => .error .valueError

/-- Replace row `i` of a recarray (`IndexError` when out of range). -/
def setRowAt (a : RecArray) (i : Nat) (r : List FVal) : Except PyErr RecArray :=
  if i < a.rows.length then .ok { a with rows := updAt a.rows i (fun _ => r) }
  else .error .indexError

/-- `current[ibnd] = tuple(t[:len(current.dtype.names)])` with `t` a list of
string tokens (mfstr.py line 364): slice to the field count, fail with
`ValueError` when there are too few tokens or a conversion fails. -/
def assignTuple (a : RecArray) (i : Nat) (toks : List String) : Except PyErr RecArray :=
  let tt := toks.take a.dtype.length
  if tt.length ≠ a.dtype.length then .error .valueError
  else
    match convertRow a.dtype tt with
    | .error e => .error e
    | .ok vals => setRowAt a i vals

/-- `current[ibnd] = tuple(t[:len(current.dtype.names)])` with `t` an
already-typed record (the parameter path, mfstr.py line 341). -/
def assignRec (a : RecArray) (i : Nat) (row : List FVal) : Except PyErr RecArray :=
  let tt := row.take a.dtype.length
  if tt.length ≠ a.dtype.length then .error .valueError
  else setRowAt a i tt

/-- `ModflowStr.get_default_dtype` (mfstr.py lines 136-151): the structured
schema `k,i,j,segment,reach,flow,stage,cond,sbot,stop`, the unstructured one
`node,segment,reach,flow,stage,cond,sbot,stop`. -/
def getDefaultDtype (structured : Bool) : Dtype :=
  if structured then
    [("k", .int), ("i", .int), ("j", .int), ("segment", .int), ("reach", .int),
     ("flow", .f32), ("stage", .f32), ("cond", .f32), ("sbot", .f32), ("stop", .f32)]
  else
    [("node", .int), ("segment", .int), ("reach", .int),
     ("flow", .f32), ("stage", .f32), ("cond", .f32), ("sbot", .f32), ("stop", .f32)]

/-- Modelled from the spec: `Package.add_to_dtype` (flopy/mbase.py, called at
mfstr.py line 131 but not part of src/).  Spec §4.1: appends one numeric
field per auxiliary name and "fails with SchemaError on duplicate name,
case-insensitive". -/
def addToDtype (d : Dtype) (names : List String) (ty : FType) : Except PyErr Dtype :=
  match names with
  | [] => .ok d
  | nm :: rest =>
    if d.any (fun p => pyLowerStr p.1 == pyLowerStr nm) then .error (.schemaError nm)
    else addToDtype (d ++ [(nm, ty)]) rest ty

/-- The fill value `-1.0E+10` of `get_empty`, cast per field kind exactly as
numpy casts the float scalar into each field. -/
def sentinelFor : FType → FVal
  | .int => .iv (-10000000000)
  | .f32 => .fv ⟨-10000000000, 0⟩

/-- `ModflowStr.get_empty` (mfstr.py lines 126-134).  The numpy chain
`np.zeros((ncells, len(dtype)), dtype=dtype)`, `d[:, :] = -1.0E+10`,
`np.core.records.fromarrays(d.transpose(), dtype=dtype)` is modelled at the
value level: the result is a recarray of `ncells` rows over the default
dtype (extended by one float32 field per auxiliary name) in which every
field of every row holds the sentinel `-1.0E+10`. -/
def getEmpty (ncells : Nat) (auxNames : Option (List String)) (structured : Bool := true) :
    Except PyErr RecArray :=
  let d0 := getDefaultDtype structured
  match auxNames with
  | none => .ok { dtype := d0, rows := List.replicate ncells (d0.map (fun p => sentinelFor p.2)) }
  | some ns =>
    match addToDtype d0 ns .f32 with
    | .error e => .error e
    | .ok d => .ok { dtype := d, rows := List.replicate ncells (d.map (fun p => sentinelFor p.2)) }

/-- `current[nm] -= 1` (mfstr.py lines 380-382): subtract one from the named
field of every row; numpy raises `KeyError` when the dtype lacks the
field. -/
def subField (a : RecArray) (nm : String) : Except PyErr RecArray :=
  match fieldIdx a.dtype nm with
  | none => .error (.keyError nm)
  | some i => .ok { a with rows := a.rows.map (fun r => updAt r i FVal.sub1) }

/-- Add one to the named field of every row (used by the modelled writer to
restore the one-based file convention). -/
def addField (a : RecArray) (nm : String) : Except PyErr RecArray :=
  match fieldIdx a.dtype nm with
  | none => .error (.keyError nm)
  | some i => .ok { a with rows := a.rows.map (fun r => updAt r i FVal.add1) }

/-- The index zero-basing block of `load` (mfstr.py lines 379-383):
`current['k'] -= 1`, `current['i'] -= 1`, `current['j'] -= 1`. -/
def applyZeroBase (a : RecArray) : Except PyErr RecArray :=
  match subField a "k" with
  | .error e => .error e
  | .ok b1 =>
    match subField b1 "i" with
    | .error e => .error e
    | .ok b2 => subField b2 "j"

/-- The writer's inverse of `applyZeroBase`: re-increment the spatial index
fields (spec §4.5, "spatial indices incremented back to one-based"). -/
def applyOneBase (a : RecArray) : Except PyErr RecArray :=
  match addField a "j" with
  | .error e => .error e
  | .ok b1 =>
    match addField b1 "i" with
    | .error e => .error e
    | .ok b2 => addField b2 "k"

/-- Association-list lookup by string key (Python dict access at the value
level; the keys used here are already lower-cased by the callers). -/
def alookup (l : List (String × α)) (k : String) : Option α :=
  (l.find? (fun p => p.1 == k)).map (fun p => p.2)

/-- One parameter definition: its declared record count `nlst` and default
value `parval` (spec §3). -/
structure ParDef where
  nlst : Nat
  parval : Dec
  deriving DecidableEq, Repr

/-- The shape of the parameter object `pak_parms` that the usage loop of
mfstr.py lines 314-341 expects: `bcParms` maps a lower-cased parameter name
to its definition and its named instances, each instance a list of records.
No such object is ever constructed by `load` — the `mfparbc.load` call that
would build it (line 281) raises `NameError` because the module never
imports `mfparbc` — but the loop body that would consume it is source text
and is embedded faithfully in `processUsage`/`paramLoop`. -/
structure ParCatalog where
  bcParms : List (String × ParDef × List (String × List (List FVal)))
  deriving DecidableEq, Repr

/-- `int(t[i])`: indexing followed by integer conversion. -/
def intTokAt (t : List String) (i : Nat) : Except PyErr Int :=
  match tokAt t i with
  | .error e => .error e
  | .ok s => pyIntE s

/-- `float(t[i])`: indexing followed by float conversion. -/
def floatTokAt (t : List String) (i : Nat) : Except PyErr Dec :=
  match tokAt t i with
  | .error e => .error e
  | .ok s => pyFloatE s

/-- `pak_parms.get(pname)` — modelled from the spec: case-insensitive lookup
of a parameter definition; "unresolved parameter name is a LookupError"
(spec §4.2). -/
def parbcGet (cat : ParCatalog) (pname : String) :
    Except PyErr (ParDef × List (String × List (List FVal))) :=
  match alookup cat.bcParms pname with
  | some v => .ok v
  | none => .error (.lookupError pname)

/-- `f.readline()`: the next line, or the empty string at end of file. -/
def readLn : List String → String × List String
  | [] => ("", [])
  | l :: r => (l, r)

/-- The context threaded through the period loop of `load`: the values of
the locals fixed before the loop starts. -/
structure LoadCtx where
  auxNames : List String
  npstr : Int
  cat : Option ParCatalog
  icalc : Int
  modelWs : String
  extFiles : List (String × List String)
  pval : Option (List (String × Dec))
  deriving DecidableEq, Repr

/-- The mutable state of the period loop: the unread lines, the next period
index, the accumulated `stress_period_data` and the loop-carried local
`current` (unassigned before the first period). -/
structure LoopState where
  lines : List String
  iper : Nat
  spd : List (Nat × PeriodData)
  current : Option RecArray
  deriving DecidableEq, Repr

/-- Parsing of one period control line (mfstr.py lines 296-302): `itmp` from
the first token, optional `irdflg` and `iptflg`. -/
def parsePeriodCtrl (l : String) : Except PyErr (Int × Int × Int) :=
  let t := pySplitWs (pyStrip l)
  match tokAt t 0 with
  | .error e => .error e
  | .ok s0 =>
    match pyIntE s0 with
    | .error e => .error e
    | .ok itmp =>
      match (match t.get? 1 with | some s => pyIntE s | none => .ok 0) with
      | .error e => .error e
      | .ok ir =>
        match (match t.get? 2 with | some s => pyIntE s | none => .ok 0) with
        | .error e => .error e
        | .ok ip => .ok (itmp, ir, ip)

/-- Python `' '.join(xs)`. -/
def joinSp (xs : List String) : String := String.intercalate " " xs

/-- The option and auxiliary-name scan over the dataset-2 tokens beyond
position 8 (mfstr.py lines 266-276): a token containing "aux" records the
pair and consumes the following token as an auxiliary-variable name
(`IndexError` when that token is missing). -/
def scanAux : List String → Except PyErr (List String × List String)
  | [] => .ok ([], [])
  | tok :: rest =>
    if containsSub (pyLowerStr tok) "aux" then
      match rest with
      | [] => .error .indexError
      | nxt :: rest2 =>
        match scanAux rest2 with
        | .error e => .error e
        | .ok (opts, auxs) => .ok (joinSp [tok, nxt] :: opts, pyLowerStr nxt :: auxs)
    else scanAux rest

/-- The parsed dataset-2 global control line. -/
structure Ds2 where
  mxacts : Int
  nss : Int
  ntrib : Int
  ndiv : Int
  icalc : Int
  constv : Dec
  istcb1 : Int
  istcb2 : Int
  options : List String
  auxNames : List String
  deriving DecidableEq, Repr

/-- Dataset 2 (mfstr.py lines 240-276): the global control line
`mxacts nss ntrib ndiv icalc const istcb1 istcb2 [aux name]...`. -/
def parseDs2Line (l : String) : Except PyErr Ds2 := do
  let t := pySplitWs (pyStrip l)
  let mxacts ← intTokAt t 0
  let nss ← intTokAt t 1
  let ntrib ← intTokAt t 2
  let ndiv ← intTokAt t 3
  let icalc ← intTokAt t 4
  let constv ← floatTokAt t 5
  let istcb1 ← intTokAt t 6
  let istcb2 ← intTokAt t 7
  let (opts, auxs) ← scanAux (t.drop 8)
  pure { mxacts := mxacts, nss := nss, ntrib := ntrib, ndiv := ndiv,
         icalc := icalc, constv := constv, istcb1 := istcb1, istcb2 := istcb2,
         options := opts, auxNames := auxs }

/-- Resolution of the instance name for one parameter usage (mfstr.py lines
314-324): the second token of the usage line selects a declared instance;
any failure inside the `try` block (missing token, unknown parameter name)
is swallowed and leaves `iname = 'static'`. -/
def resolveIname (cat : ParCatalog) (t : List String) (pname : String) : String :=
  match t.get? 1 with
  | none => "static"
  | some tn =>
    let c := pyLowerStr tn
    match alookup cat.bcParms pname with
    | none => "static"
    | some pr => if (alookup pr.2 c).isSome then c else "static"

/-- Resolution of `parval` for one parameter usage (mfstr.py lines 330-337):
an external override from `model.mfpar.pval` takes precedence; any lookup
failure falls back to the definition's own `parval`.  The resolved value is
bound by `load` but never applied to the records (the spec's §9 open
question). -/
def resolveParval (pval : Option (List (String × Dec))) (pname : String) (pd : ParDef) : Dec :=
  match pval with
  | none => pd.parval
  | some tbl =>
    match alookup tbl pname with
    | some v => v
    | none => pd.parval

/-- The parameter fill loop (mfstr.py lines 340-341): write each record of
the selected instance into consecutive rows of `current`. -/
def fillRows (a : RecArray) (rows : List (List FVal)) (i : Nat) : Except PyErr RecArray :=
  match rows with
  | [] => .ok a
  | r :: rs =>
    match assignRec a i r with
    | .error e => .error e
    | .ok a2 => fillRows a2 rs (i + 1)

/-- One parameter usage of an `itmp > 0` period when parameters are declared
(mfstr.py lines 311-341): read the usage line, resolve the parameter and
instance, allocate `current = ModflowStr.get_empty(par_dict['nlst'])` and
fill it from the instance's records.  Each usage rebinds `current` — the
usages are not concatenated. -/
def processUsage (ctx : LoadCtx) (cat : ParCatalog) (l : String) : Except PyErr RecArray :=
  let t := pySplitWs (pyStrip l)
  match tokAt t 0 with
  | .error e => .error e
  | .ok s0 =>
    let pname := pyLowerStr s0
    let iname := resolveIname cat t pname
    match parbcGet cat pname with
    | .error e => .error e
    | .ok (pd, instDict) =>
      match alookup instDict iname with
      | none => .error (.keyError iname)
      | some dataDict =>
        match getEmpty pd.nlst (some ctx.auxNames) true with
        | .error e => .error e
        | .ok cur =>
          let _parval := resolveParval ctx.pval pname pd
          fillRows cur dataDict 0

/-- The `for iparm in range(itmp)` loop of the parameter path (mfstr.py
lines 310-341); the value left in `current` after the loop is the array of
the last usage processed. -/
def paramLoop (ctx : LoadCtx) (cat : ParCatalog) :
    Nat → List String → Option RecArray → Except PyErr (RecArray × List String)
  | 0, ls, cur? =>
    (match cur? with
     | some c => .ok (c, ls)
     | none => .error (.unboundLocal "current"))
  | k + 1, ls, _ =>
    let (l, rest) := readLn ls
    match processUsage ctx cat l with
    | .error e => .error e
    | .ok c => paramLoop ctx cat k rest (some c)

/-- The `for ibnd in range(itmp)` record-reading loop of an explicit period
without parameters (mfstr.py lines 345-377).  A line containing the
open/close marker (case-insensitive, anywhere in the line) enters the
external-reference branch of lines 347-361; its first statement evaluates
`os.path.join`, but the module never imports `os`, so the branch raises
`NameError` on the name `os` before the filename token is even extracted —
the existence assert, `np.genfromtxt` and the row-count assert of line 358
are unreachable.  A line whose free-format parse fails enters the
fixed-column fallback of lines 366-377; that fallback calls the Python
width list `ipos(ivar)` instead of indexing `ipos[ivar]`, so its first
iteration raises `TypeError` before any slicing happens (the offsets are
furthermore advanced by `istart = istop + 1`, and the auxiliary loop
iterates over the integer `len(aux_names)` — the fallback can never
complete). -/
def readRecordLoop (ctx : LoadCtx) (itmp : Nat) :
    Nat → Nat → RecArray → List String → Except PyErr (RecArray × List String)
  | 0, _, a, ls => .ok (a, ls)
  | k + 1, ibnd, a, ls =>
    let (l, rest) := readLn ls
    if containsSub (pyLowerStr l) "open/close" then
      .error (.nameError "os")
    else
      match assignTuple a ibnd (pySplitWs (pyStrip l)) with
      | .ok a2 => readRecordLoop ctx itmp k (ibnd + 1) a2 rest
      | .error _ => .error .typeError

/-- Dataset-8 reading (mfstr.py lines 386-402), entered when `icalc > 0` and
`itmp > 0`: one numeric triple per record, free-format first; the
fixed-column fallback of lines 394-401 has the same `ipos(ivar)` call bug
as the record fallback and raises `TypeError` whenever entered.  The
assembled `tds8` is returned to the caller, which mirrors the source in
discarding it: no `ds8[iper] = tds8` assignment exists anywhere. -/
def readDs8 : Nat → List String → Except PyErr (List (Dec × Dec × Dec) × List String)
  | 0, ls => .ok ([], ls)
  | k + 1, ls =>
    let (l, rest) := readLn ls
    let t := pySplitWs (pyStrip l)
    let tri : Option (Dec × Dec × Dec) :=
      match floatTokAt t 0 with
      | .error _ => none
      | .ok v1 =>
        match floatTokAt t 1 with
        | .error _ => none
        | .ok v2 =>
          match floatTokAt t 2 with
          | .error _ => none
          | .ok v3 => some (v1, v2, v3)
    match tri with
    | none => .error .typeError
    | some v =>
      match readDs8 k rest with
      | .error e => .error e
      | .ok (vs, rest2) => .ok (v :: vs, rest2)

/-- One iteration of the stress-period loop of `load` (mfstr.py lines
290-413).  Returns `none` when the control-line read hits end of file
(`line == ''` → `break`).  For `itmp == 0` the stored entry is the bare
integer `itmp`; for `itmp > 0` the records are read (via parameters or
inline), zero-based and stored; for `itmp < 0` the code copies the local
`current` — reading it raises `UnboundLocalError` on the first period. -/
def periodStep (ctx : LoadCtx) (st : LoopState) : Except PyErr (Option LoopState) :=
  match st.lines with
  | [] => .ok none
  | l :: rest =>
    match parsePeriodCtrl l with
    | .error e => .error e
    | .ok (itmp, _, _) =>
      if itmp = 0 then
        match getEmpty itmp.toNat (some ctx.auxNames) true with
        | .error e => .error e
        | .ok cur =>
          .ok (some { lines := rest, iper := st.iper + 1,
                      spd := st.spd ++ [(st.iper, .count itmp)], current := some cur })
      else if 0 < itmp then
        let stage1 : Except PyErr (RecArray × List String) :=
          if 0 < ctx.npstr then
            match pyLocal ctx.cat "pak_parms" with
            | .error e => .error e
            | .ok cat => paramLoop ctx cat itmp.toNat rest st.current
          else
            match getEmpty itmp.toNat (some ctx.auxNames) true with
            | .error e => .error e
            | .ok cur0 => readRecordLoop ctx itmp.toNat itmp.toNat 0 cur0 rest
        match stage1 with
        | .error e => .error e
        | .ok (cur1, rest1) =>
          match applyZeroBase cur1 with
          | .error e => .error e
          | .ok cur2 =>
            let bnd := copyRA cur2
            let stage2 : Except PyErr (List String) :=
              if 0 < ctx.icalc then
                match readDs8 itmp.toNat rest1 with
                | .error e => .error e
                | .ok (_tds8, rest2) => .ok rest2
              else .ok rest1
            match stage2 with
            | .error e => .error e
            | .ok rest2 =>
              .ok (some { lines := rest2, iper := st.iper + 1,
                          spd := st.spd ++ [(st.iper, .recs bnd)], current := some cur2 })
      else
        match pyLocal st.current "current" with
        | .error e => .error e
        | .ok a =>
          let bnd := copyRA a
          .ok (some { lines := rest, iper := st.iper + 1,
                      spd := st.spd ++ [(st.iper, .recs bnd)], current := st.current })

/-- The `for iper in range(nper)` loop (mfstr.py line 290). -/
def loadPeriods (ctx : LoadCtx) : Nat → LoopState → Except PyErr LoopState
  | 0, st => .ok st
  | n + 1, st =>
    match periodStep ctx st with
    | .error e => .error e
    | .ok none => .ok st
    | .ok (some st2) => loadPeriods ctx n st2

/-- First character of a line as Python sees it (`f.readline()` keeps the
trailing newline, so a blank line yields a newline character). -/
def firstCh (l : String) : Char :=
  match l.data with
  | [] => '\n'
  | c :: _ => c

/-- The header loop (mfstr.py lines 222-226): discard lines whose first
character is `#`; at end of file `readline` returns the empty string and
`line[0]` raises `IndexError` — the `[]` branch. -/
def skipHeader : List String → Except PyErr (String × List String)
  | [] => .error .indexError
  | l :: r => if firstCh l = '#' then skipHeader r else .ok (l, r)

/-- The inputs of `ModflowStr.load` relevant to this embedding: whether `f`
was given as a filename (so that a handle is opened at entry, mfstr.py
lines 218-220), the file's lines, the `nper` argument, and the model-object
services the loader consults (`get_nrow_ncol_nlay_nper`, `mfpar.pval`).
The working location `modelWs` and the external files visible from it are
part of the environment the open/close branch of lines 347-361 addresses,
but the code never actually reads them: that branch raises `NameError` on
the unimported name `os` first. -/
structure LoadEnv where
  fromFile : Bool
  lines : List String
  nperArg : Option Nat
  modelNper : Nat
  modelWs : String
  extFiles : List (String × List String)
  pval : Option (List (String × Dec))
  deriving DecidableEq, Repr

/-- Everything observable at the end of `ModflowStr.load` (mfstr.py lines
213-417): the locals holding the data just read (`stress_period_data`,
`ds8`/`ds9`/`ds10`, the dataset-1 and dataset-2 values), the value actually
returned (`str8 = None`, lines 416-417), and the file-handle record —
`load` opens the handle when given a filename and contains no `close()`
call on any path, so `fileClosed` is `false`. -/
structure LoadOut where
  spd : List (Nat × PeriodData)
  ds8 : List (Nat × List (Dec × Dec × Dec))
  ds9 : List (Nat × List (Dec × Dec × Dec))
  ds10 : List (Nat × List (Dec × Dec × Dec))
  npstr : Int
  mxl : Int
  mxacts : Int
  nss : Int
  ntrib : Int
  ndiv : Int
  icalc : Int
  istcb1 : Int
  istcb2 : Int
  ipakcb : Int
  constv : Dec
  options : List String
  auxNames : List String
  returned : Option Unit
  fileOpened : Bool
  fileClosed : Bool
  deriving DecidableEq, Repr

/-- Dataset 1 (mfstr.py lines 228-238): when the first token of the first
non-comment line is `parameter` (case-insensitive), read `npstr` and `mxl`
from it and advance to the next line; otherwise the same line is dataset
2. -/
def readDs1 (s0 : String) (t1 : List String) (line0 : String) (r0 : List String) :
    Except PyErr (Int × Int × String × List String) :=
  if pyLowerStr s0 = "parameter" then
    match intTokAt t1 1 with
    | .error e => .error e
    | .ok np =>
      match intTokAt t1 2 with
      | .error e => .error e
      | .ok mx =>
        let lr := readLn r0
        .ok (np, mx, lr.1, lr.2)
  else .ok (0, 0, line0, r0)

/-- The parameter-data stage (mfstr.py lines 279-281): when `npstr > 0`,
line 280 first evaluates `ModflowStr.get_empty(1, aux_names=aux_names)` for
its dtype (that call can itself fail, e.g. on duplicate auxiliary names),
and line 281 then evaluates `pak_parms = mfparbc.load(...)` — but the
module never imports `mfparbc`, so the call raises `NameError` on the name
`mfparbc`.  A parameter catalog is never built, and the period loop is
never reached on an input that declares parameters. -/
def readParBlocks (npstr : Int) (auxNames : List String) (r2 : List String) :
    Except PyErr (Option ParCatalog × List String) :=
  if 0 < npstr then
    match getEmpty 1 (some auxNames) true with
    | .error e => .error e
    | .ok _dt => .error (.nameError "mfparbc")
  else .ok (none, r2)

/-- `ModflowStr.load` (mfstr.py lines 179-417): header skip, optional
dataset 1, dataset 2, optional parameter blocks, then the stress-period
loop; the successful exit binds `str8 = None` and returns it. -/
def loadCore (env : LoadEnv) : Except PyErr LoadOut := do
  let hdr ← skipHeader env.lines
  let t1 := pySplitWs (pyStrip hdr.1)
  let s0 ← tokAt t1 0
  let ds1 ← readDs1 s0 t1 hdr.1 hdr.2
  let npstr := ds1.1
  let mxl := ds1.2.1
  let line2 := ds1.2.2.1
  let r2 := ds1.2.2.2
  let d2 ← parseDs2Line line2
  let ipakcb : Int := if d2.istcb1 ≠ 0 ∨ d2.istcb2 ≠ 0 then 53 else 0
  let pcat ← readParBlocks npstr d2.auxNames r2
  let nper := env.nperArg.getD env.modelNper
  let ctx : LoadCtx :=
    { auxNames := d2.auxNames, npstr := npstr, cat := pcat.1, icalc := d2.icalc,
      modelWs := env.modelWs, extFiles := env.extFiles, pval := env.pval }
  let final ← loadPeriods ctx nper { lines := pcat.2, iper := 0, spd := [], current := none }
  pure { spd := final.spd, ds8 := [], ds9 := [], ds10 := [],
         npstr := npstr, mxl := mxl, mxacts := d2.mxacts, nss := d2.nss,
         ntrib := d2.ntrib, ndiv := d2.ndiv, icalc := d2.icalc,
         istcb1 := d2.istcb1, istcb2 := d2.istcb2, ipakcb := ipakcb,
         constv := d2.constv, options := d2.options, auxNames := d2.auxNames,
         returned := none, fileOpened := env.fromFile, fileClosed := false }

/-- Right-justified rendering of an integer in a ten-wide field
(`'{0:10d}'.format`). -/
def pad10 (s : String) : String :=
  String.mk (List.replicate (10 - s.length) ' ') ++ s

/-- The package attributes `write_file` reads. -/
structure StrPkg where
  heading : String
  ipakcb : Int
  mxact : Int
  options : List String
  dtype : Dtype
  spd : List (Nat × PeriodData)
  deriving DecidableEq, Repr

/-- One line of writer output: plain text, a period control line, or one
record with its (re-one-based) field values. -/
inductive WLine where
  | text (s : String)
  | ctrl (itmp : Int)
  | rcd (fields : List FVal)
  deriving DecidableEq, Repr

/-- Modelled from the spec: the per-period serialization performed by
`mflist.write_transient` (flopy/utils/util_list.py, called at mfstr.py line
170 but not part of src/).  Spec §4.5: for each period in order emit a
control line carrying the period's record count and, for non-empty
periods, one line per record with spatial indices incremented back to
one-based (`applyOneBase`, the structured fields `k,i,j`); per §6 the
write fails when a record's field count disagrees with the schema, before
any output is produced for that period. -/
def writeTransient (dtype : Dtype) : List (Nat × PeriodData) → Except PyErr (List WLine)
  | [] => .ok []
  | (_, .count n) :: rest =>
    match writeTransient dtype rest with
    | .error e => .error e
    | .ok ls => .ok (.ctrl n :: ls)
  | (_, .recs a) :: rest =>
    if a.rows.all (fun r => r.length = dtype.length) then
      match applyOneBase a with
      | .error e => .error e
      | .ok a1 =>
        match writeTransient dtype rest with
        | .error e => .error e
        | .ok ls => .ok (.ctrl (a.rows.length : Int) :: (a1.rows.map WLine.rcd ++ ls))
    else .error (.exception "record field count disagrees with schema")

/-- `ModflowStr.write_file` (mfstr.py lines 158-171): open the handle, write
the heading line and the control line, delegate the periods to
`write_transient`, close the handle.  The second component reports whether
the handle was closed: the `f_str.close()` of line 171 runs only when
`write_transient` returns normally — an exception propagates past it and
the handle stays open. -/
def writeFile (p : StrPkg) : Except PyErr (List WLine) × Bool :=
  let ctrl := pad10 (toString p.mxact) ++ pad10 (toString p.ipakcb)
  let ctrl2 := p.options.foldl (fun l o => l ++ " " ++ o) ctrl
  match writeTransient p.dtype p.spd with
  | .ok ls => (.ok (.text p.heading :: .text ctrl2 :: ls), true)
  | .error e => (.error e, false)

/-! Helper lemmas shared by several claim theorems. -/

theorem updAt_length (l : List α) (i : Nat) (f : α → α) :
    (updAt l i f).length = l.length := by
  induction l generalizing i with
  | nil => rfl
  | cons x xs ih =>
    cases i with
    | zero => rfl
    | succ n => simp [updAt, ih]

theorem updAt_updAt_same (l : List α) (i : Nat) (f g : α → α) :
    updAt (updAt l i f) i g = updAt l i (fun x => g (f x)) := by
  induction l generalizing i with
  | nil => rfl
  | cons x xs ih =>
    cases i with
    | zero => rfl
    | succ n => simp [updAt, ih]

theorem updAt_id_fun (l : List α) (i : Nat) : updAt l i (fun x => x) = l := by
  induction l generalizing i with
  | nil => rfl
  | cons x xs ih =>
    cases i with
    | zero => rfl
    | succ n => simp [updAt, ih]

theorem updAt_get_same (l : List α) (i : Nat) (f : α → α) :
    (updAt l i f).get? i = (l.get? i).map f := by
  induction l generalizing i with
  | nil => rfl
  | cons x xs ih =>
    cases i with
    | zero => rfl
    | succ n => simpa [updAt] using ih n

theorem updAt_get_ne (l : List α) (i j : Nat) (f : α → α) (h : i ≠ j) :
    (updAt l j f).get? i = l.get? i := by
  induction l generalizing i j with
  | nil => rfl
  | cons x xs ih =>
    cases j with
    | zero =>
      cases i with
      | zero => exact absurd rfl h
      | succ m => rfl
    | succ n =>
      cases i with
      | zero => rfl
      | succ m =>
        simpa [updAt] using ih m n (fun hmn => h (by simpa using congrArg Nat.succ hmn))

theorem FVal.add1_sub1 (v : FVal) : v.sub1.add1 = v := by
  cases v with
  | iv z => simp [FVal.sub1, FVal.add1]
  | fv q => simp [FVal.sub1, FVal.add1, Dec.sub1, Dec.add1]

theorem fieldIdx_get (d : Dtype) (nm : String) (i : Nat)
    (h : fieldIdx d nm = some i) : ∃ ty, d.get? i = some (nm, ty) := by
  induction d generalizing i with
  | nil => simp [fieldIdx] at h
  | cons p rest ih =>
    rw [fieldIdx] at h
    by_cases hp : p.1 = nm
    · rw [if_pos hp] at h
      have hi : i = 0 := by simpa using h.symm
      subst hi
      refine ⟨p.2, ?_⟩
      have hpp : p = (nm, p.2) := by
        cases p with
        | mk x y => simpa using hp
      rw [hpp]
      rfl
    · rw [if_neg hp] at h
      cases hmap : fieldIdx rest nm with
      | none => rw [hmap] at h; simp at h
      | some j =>
        rw [hmap] at h
        have hi : i = j + 1 := by simpa using h.symm
        subst hi
        obtain ⟨ty, hty⟩ := ih j hmap
        exact ⟨ty, by simpa using hty⟩

theorem fieldIdx_ne (d : Dtype) (nm1 nm2 : String) (i1 i2 : Nat)
    (h1 : fieldIdx d nm1 = some i1) (h2 : fieldIdx d nm2 = some i2)
    (hnm : nm1 ≠ nm2) : i1 ≠ i2 := by
  intro hi
  obtain ⟨ty1, ht1⟩ := fieldIdx_get d nm1 i1 h1
  obtain ⟨ty2, ht2⟩ := fieldIdx_get d nm2 i2 h2
  rw [hi, ht2] at ht1
  have hpair : (nm2, ty2) = (nm1, ty1) := Option.some.inj ht1
  exact hnm (congrArg Prod.fst hpair).symm

theorem addField_subField (a b : RecArray) (nm : String)
    (h : subField a nm = .ok b) : addField b nm = .ok a := by
  unfold subField at h
  cases hf : fieldIdx a.dtype nm with
  | none => rw [hf] at h; simp at h
  | some i =>
    rw [hf] at h
    have hb : b = { a with rows := a.rows.map (fun r => updAt r i FVal.sub1) } := by
      cases h; rfl
    subst hb
    unfold addField
    simp only [hf]
    have hcomp : ((fun r => updAt r i FVal.add1) ∘ fun r : List FVal => updAt r i FVal.sub1) = id := by
      funext r
      simp only [Function.comp, id]
      rw [updAt_updAt_same]
      have h2 : (fun x => FVal.add1 (FVal.sub1 x)) = fun x : FVal => x := by
        funext v; exact FVal.add1_sub1 v
      rw [h2, updAt_id_fun]
    rw [List.map_map, hcomp, List.map_id]

theorem subField_elim (a b : RecArray) (nm : String) (h : subField a nm = .ok b) :
    ∃ i, fieldIdx a.dtype nm = some i ∧
      b = { a with rows := a.rows.map (fun r => updAt r i FVal.sub1) } := by
  unfold subField at h
  cases hf : fieldIdx a.dtype nm with
  | none => rw [hf] at h; simp at h
  | some i =>
    rw [hf] at h
    exact ⟨i, rfl, by cases h; rfl⟩

/-- C2: for every explicit period read by `ModflowStr.load`, the spatial
index fields `k`, `i`, `j` stored internally equal the one-based file
values minus one, and the writer re-increments them so the written file
carries the original indices.  `applyZeroBase` is exactly the decrement
block `load` applies to the raw parsed array of each explicit period before
storing it (mfstr.py lines 379-383, used in `periodStep`), and
`applyOneBase` is the spec-modelled re-incrementing step of the writer
(used in `writeTransient`): whenever the decrement succeeds, every stored
`k`/`i`/`j` column is the file column minus one, and the writer's step
restores the raw array exactly. -/
theorem strC2_zero_base_round_trip (a b : RecArray)
    (h : applyZeroBase a = .ok b) :
    applyOneBase b = .ok a ∧ b.dtype = a.dtype ∧
    ∀ nm i, (nm = "k" ∨ nm = "i" ∨ nm = "j") → fieldIdx a.dtype nm = some i →
      colAt b i = (colAt a i).map (Option.map FVal.sub1) := by
  unfold applyZeroBase at h
  cases h1 : subField a "k" with
  | error e => rw [h1] at h; simp at h
  | ok b1 =>
    simp only [h1] at h
    cases h2 : subField b1 "i" with
    | error e => rw [h2] at h; simp at h
    | ok b2 =>
      simp only [h2] at h
      have e3 := addField_subField b2 b "j" h
      have e2 := addField_subField b1 b2 "i" h2
      have e1 := addField_subField a b1 "k" h1
      have hinv : applyOneBase b = .ok a := by
        unfold applyOneBase
        simp only [e3, e2, e1]
      obtain ⟨ik, hik, hb1⟩ := subField_elim a b1 "k" h1
      obtain ⟨ii, hii0, hb2⟩ := subField_elim b1 b2 "i" h2
      obtain ⟨ij, hij0, hb⟩ := subField_elim b2 b "j" h
      subst hb1
      subst hb2
      subst hb
      have hii : fieldIdx a.dtype "i" = some ii := hii0
      have hij : fieldIdx a.dtype "j" = some ij := hij0
      refine ⟨hinv, rfl, ?_⟩
      intro nm i hnm hfi
      simp only [colAt, List.map_map]
      congr 1
      funext r
      simp only [Function.comp]
      rcases hnm with rfl | rfl | rfl
      · have hi : i = ik := by rw [hfi] at hik; exact (Option.some.inj hik)
        subst hi
        have d1 : i ≠ ij := fieldIdx_ne a.dtype "k" "j" i ij hik hij (by decide)
        have d2 : i ≠ ii := fieldIdx_ne a.dtype "k" "i" i ii hik hii (by decide)
        rw [updAt_get_ne _ i ij _ d1, updAt_get_ne _ i ii _ d2, updAt_get_same]
      · have hi : i = ii := by rw [hfi] at hii; exact (Option.some.inj hii)
        subst hi
        have d1 : i ≠ ij := fieldIdx_ne a.dtype "i" "j" i ij hii hij (by decide)
        have d2 : i ≠ ik := fieldIdx_ne a.dtype "i" "k" i ik hii hik (by decide)
        rw [updAt_get_ne _ i ij _ d1, updAt_get_same, updAt_get_ne _ i ik _ d2]
      · have hi : i = ij := by rw [hfi] at hij; exact (Option.some.inj hij)
        subst hi
        have d1 : i ≠ ii := fieldIdx_ne a.dtype "j" "i" i ii hij hii (by decide)
        have d2 : i ≠ ik := fieldIdx_ne a.dtype "j" "k" i ik hij hik (by decide)
        rw [updAt_get_same, updAt_get_ne _ i ii _ d1, updAt_get_ne _ i ik _ d2]

/-- A one-record raw array exactly as the free-format parse of the line
`1 2 3 4 5 10.0 1.0 5.0 0.0 2.0` produces it (one-based indices). -/
def strC2arr : RecArray :=
  { dtype := getDefaultDtype true
    rows := [[.iv 1, .iv 2, .iv 3, .iv 4, .iv 5,
              .fv ⟨10, 0⟩, .fv ⟨1, 0⟩, .fv ⟨5, 0⟩, .fv ⟨0, 0⟩, .fv ⟨2, 0⟩]] }

/-- The same array after `load`'s zero-basing. -/
def strC2dec : RecArray :=
  { dtype := getDefaultDtype true
    rows := [[.iv 0, .iv 1, .iv 2, .iv 4, .iv 5,
              .fv ⟨10, 0⟩, .fv ⟨1, 0⟩, .fv ⟨5, 0⟩, .fv ⟨0, 0⟩, .fv ⟨2, 0⟩]] }

/-- Witness for C2: at a concrete one-record array the decrement succeeds
and the writer's re-increment restores the original. -/
theorem strC2_witness :
    applyZeroBase strC2arr = .ok strC2dec ∧ applyOneBase strC2dec = .ok strC2arr :=
  ⟨by decide, (strC2_zero_base_round_trip strC2arr strC2dec (by decide)).1⟩

/-- C3: carry-forward correctness inside the period loop.  When the
loop-local `current` holds the array `a` resolved by the previous period
and the last `stress_period_data` entry stores that same array, a period
whose control line declares `itmp < 0` stores `a` again under the next
period index: the resolved entry equals the previous period's entry (both
are `recs a`) and is never the bare-count (empty) variant. -/
theorem strC3_carry_forward (ctx : LoadCtx) (st : LoopState) (a : RecArray)
    (l : String) (rest : List String) (itmp ir ip : Int) (p : Nat)
    (hcur : st.current = some a)
    (hlast : st.spd.getLast? = some (p, .recs a))
    (hlines : st.lines = l :: rest)
    (hctrl : parsePeriodCtrl l = .ok (itmp, ir, ip))
    (hneg : itmp < 0) :
    periodStep ctx st = .ok (some
      { lines := rest, iper := st.iper + 1,
        spd := st.spd ++ [(st.iper, .recs a)], current := some a }) ∧
    (st.spd ++ [(st.iper, PeriodData.recs a)]).getLast? = some (st.iper, .recs a) ∧
    (st.spd.getLast?).map Prod.snd = some (PeriodData.recs a) ∧
    ∀ n : Int, PeriodData.recs a ≠ PeriodData.count n := by
  refine ⟨?_, ?_, ?_, ?_⟩
  · unfold periodStep
    rw [hlines]
    simp only [hctrl]
    rw [if_neg (by omega), if_neg (by omega)]
    simp only [hcur, pyLocal, copyRA]
  · exact List.getLast?_concat _
  · rw [hlast]; rfl
  · intro n h
    cases h

/-- C7: when the first stress period (index 0; the loop starts with the
local `current` unassigned) declares carry-forward (`itmp < 0`), the load
fails: the carry-forward branch `bnd_output = np.recarray.copy(current)`
reads `current`, which no prior period has set, so the period loop raises
(`UnboundLocalError`, the specification's `StateError` taxon) and
`loadPeriods` propagates the error to `loadCore`. -/
theorem strC7_first_period_carry (ctx : LoadCtx) (l : String) (rest : List String)
    (itmp ir ip : Int)
    (hctrl : parsePeriodCtrl l = .ok (itmp, ir, ip)) (hneg : itmp < 0) :
    periodStep ctx { lines := l :: rest, iper := 0, spd := [], current := none } =
      .error (.unboundLocal "current") ∧
    ∀ n : Nat,
      loadPeriods ctx (n + 1) { lines := l :: rest, iper := 0, spd := [], current := none } =
        .error (.unboundLocal "current") := by
  have hstep : periodStep ctx { lines := l :: rest, iper := 0, spd := [], current := none } =
      .error (.unboundLocal "current") := by
    unfold periodStep
    simp only [hctrl]
    rw [if_neg (by omega), if_neg (by omega)]
    rfl
  refine ⟨hstep, fun n => ?_⟩
  unfold loadPeriods
  rw [hstep]

/-- A period-loop context with no auxiliary names, no parameters and
`icalc = 0`. -/
def strCtxPlain : LoadCtx :=
  { auxNames := [], npstr := 0, cat := none, icalc := 0,
    modelWs := ".", extFiles := [], pval := none }

/-- A loop state in which period 0 has stored the explicit one-record array
`strC2dec` (and `current` still holds it). -/
def strC3st : LoopState :=
  { lines := ["-1"], iper := 1, spd := [(0, .recs strC2dec)], current := some strC2dec }

/-- Witness for C3: a concrete carry-forward period after a one-record
explicit period stores the same array again. -/
theorem strC3_witness :
    parsePeriodCtrl "-1" = .ok (-1, 0, 0) ∧
    periodStep strCtxPlain strC3st = .ok (some
      { lines := [], iper := 2,
        spd := [(0, .recs strC2dec), (1, .recs strC2dec)], current := some strC2dec }) :=
  ⟨by decide,
   (strC3_carry_forward strCtxPlain strC3st strC2dec "-1" [] (-1) 0 0 0
      (by decide) (by decide) rfl (by decide) (by decide)).1⟩

/-- Witness for C7: a concrete first period declaring `itmp = -1` makes the
period loop fail with the unbound `current`. -/
theorem strC7_witness :
    parsePeriodCtrl "-1" = .ok (-1, 0, 0) ∧
    periodStep strCtxPlain { lines := ["-1"], iper := 0, spd := [], current := none } =
      .error (.unboundLocal "current") :=
  ⟨by decide,
   (strC7_first_period_carry strCtxPlain "-1" [] (-1) 0 0 (by decide) (by decide)).1⟩

/-- The number of records a stored period entry carries (`0` for the
bare-count empty variant). -/
def periodRecCount : PeriodData → Nat
  | .count _ => 0
  | .recs a => a.rows.length

/-- A minimal well-formed STR input: header, global control line, one
stress period with one free-format record line; `f` given as a filename. -/
def strEnvMinimal : LoadEnv :=
  { fromFile := true
    lines := ["# STR input",
              "  2  1  0  0  0  1.0  0  0",
              "1",
              "1 2 3 4 5 10.0 1.0 5.0 0.0 2.0"]
    nperArg := some 1, modelNper := 1, modelWs := ".", extFiles := [], pval := none }

/-- C1: the exit of `load`.  On this well-formed input the embedded load
completes successfully, its `stress_period_data` holds the one explicit
record just read — and the returned value is `None` (`str8 = None;
return str8`, mfstr.py lines 416-417), contradicting both the claim and
the docstring ("Returns: str : ModflowStr object"). -/
theorem strC1_load_returns_none :
    (loadCore strEnvMinimal).map
      (fun o => (o.returned, o.spd.map (fun pr => (pr.1, periodRecCount pr.2)))) =
    .ok (none, [(0, 1)]) := by decide

/-- A well-formed input whose single record line has only nine tokens (a
fixed-column line with an empty last column), so the free-format tuple
assignment fails and the fixed-column fallback of lines 366-377 is
entered. -/
def strEnvFixedFallback : LoadEnv :=
  { fromFile := false
    lines := ["# STR input",
              "  1  1  0  0  0  1.0  0  0",
              "1",
              "    1    2    3    4    5           10.0       1.0       5.0       0.0"]
    nperArg := some 1, modelNper := 1, modelWs := ".", extFiles := [], pval := none }

/-- C4: the dual-format fallback.  On a line that free-format parsing
rejects, the fallback calls the width list (`ipos(ivar)`) instead of
indexing it, so the whole load raises `TypeError` instead of slicing the
line at the documented widths. -/
theorem strC4_fallback_raises :
    loadCore strEnvFixedFallback = .error .typeError := by decide

/-- A well-formed input with `icalc = 1` (supplementary dataset enabled):
one explicit record followed by its dataset-8 triple line; `nper = 2`, so
the loop would misread the triple line as a control line had it not been
consumed. -/
def strEnvSupp : LoadEnv :=
  { fromFile := false
    lines := ["# STR input",
              "  1  1  0  0  1  1.0  0  0",
              "1",
              "1 2 3 4 5 10.0 1.0 5.0 0.0 2.0",
              "1.0 2.0 3.0"]
    nperArg := some 2, modelNper := 2, modelWs := ".", extFiles := [], pval := none }

/-- C8: dataset-8 triples are read but never attached.  The triple line is
consumed (the second loop iteration hits end of file and breaks, leaving a
single stored period), yet `ds8`, `ds9` and `ds10` stay empty — the local
`tds8` of lines 387-402 is discarded, no `ds8[iper] = tds8` exists — and
the dataset is returned as `None` anyway. -/
theorem strC8_triples_discarded :
    (loadCore strEnvSupp).map
      (fun o => (o.ds8, o.ds9, o.ds10, o.spd.map (fun pr => (pr.1, periodRecCount pr.2)),
                 o.returned)) =
    .ok ([], [], [], [(0, 1)], none) := by decide

/-- Counterexample for C9: on a successful load from a filename the handle
was opened and is still open at exit — `load` has no `close()` call. -/
theorem strC9_counterexample :
    (loadCore strEnvMinimal).map (fun o => (o.fileOpened, o.fileClosed)) =
    .ok (true, false) := by decide

/-- Counterexample for C10: `get_empty` does not return a filled record
array for every auxiliary-name list — a duplicated name fails the schema
extension (spec §4.1) instead. -/
theorem strC10_counterexample :
    getEmpty 0 (some ["aa", "aa"]) true = .error (.schemaError "aa") := by decide

/-- A parameter-using input: two declared parameters (`ca` with one record,
`cb` with two), and one period declaring `itmp = 2` parameter usages naming
`CA` then `CB`. -/
def strEnvParams : LoadEnv :=
  { fromFile := false
    lines := ["# STR input",
              "parameter 2 2",
              "  3  1  0  0  0  1.0  0  0",
              "ca 1 7.0",
              "1 1 1 1 1 1.0 1.0 1.0 1.0 1.0",
              "cb 2 8.0",
              "1 1 1 1 1 2.0 2.0 2.0 2.0 2.0",
              "2 2 2 1 1 3.0 3.0 3.0 3.0 3.0",
              "2",
              "CA",
              "CB"]
    nperArg := some 1, modelNper := 1, modelWs := ".", extFiles := [], pval := none }

/-- Counterexample for C5: on this parameter-declaring input the claim
predicts a resolved period record list of 1 + 2 = 3 records; the load
never resolves any period at all — it fails with `NameError` at the
`mfparbc.load` call of line 281, for which the module has no import. -/
theorem strC5_counterexample :
    loadCore strEnvParams = .error (.nameError "mfparbc") := by decide

/-- C5 (amended): when parameters are declared, `load` never resolves any
parameter usage.  Whenever `npstr > 0` and the dtype probe of line 280
succeeds, the call `pak_parms = mfparbc.load(...)` of line 281 raises
`NameError` — the module has no import binding `mfparbc` — so the load
fails before any stress period is read and no period record list is
produced at all (consistent with the module docstring "Parameters are not
supported in FloPy", line 85). -/
theorem strC5_params_unreachable (npstr : Int) (auxNames : List String)
    (r2 : List String) (dt : RecArray)
    (hp : 0 < npstr)
    (hdt : getEmpty 1 (some auxNames) true = .ok dt) :
    readParBlocks npstr auxNames r2 = .error (.nameError "mfparbc") := by
  unfold readParBlocks
  rw [if_pos hp]
  simp only [hdt]

/-- Witness for the amended C5: with one declared parameter and no
auxiliary names, the parameter-data stage fails with the unbound name. -/
theorem strC5_witness :
    (0 : Int) < 2 ∧ readParBlocks 2 [] [] = .error (.nameError "mfparbc") :=
  ⟨by decide,
   strC5_params_unreachable 2 [] []
     { dtype := getDefaultDtype true
       rows := [(getDefaultDtype true).map (fun p => sentinelFor p.2)] }
     (by decide) (by decide)⟩

/-- An input whose single explicit period (`itmp = 2`) gives its record
block via an `OPEN/CLOSE` line.  The external file `recs.dat` it names
holds one row on disk — a row count different from the declared `itmp` —
but the load never gets as far as opening it. -/
def strEnvOpenClose : LoadEnv :=
  { fromFile := false
    lines := ["# STR input",
              "  2  1  0  0  0  1.0  0  0",
              "2",
              "OPEN/CLOSE recs.dat"]
    nperArg := some 1, modelNper := 1, modelWs := "ws"
    extFiles := [("ws/recs.dat", ["1 2 3 4 5 10.0 1.0 5.0 0.0 2.0"])], pval := none }

/-- C6: external-reference validation.  The row-count assert of line 358
(`current.shape[0] == itmp`, message "... does not match itmp") documents
exactly the claimed validation, but it is dead code: the first statement
of the open/close branch, the `os.path.join` call of line 349, raises
`NameError` because the module never imports `os`.  On a period whose
record block is an `OPEN/CLOSE` line naming a file with a mismatching row
count, the load fails with that `NameError` — before the row count, or
even the file's existence, can be examined — instead of failing with the
claimed validation error. -/
theorem strC6_open_close_name_error :
    loadCore strEnvOpenClose = .error (.nameError "os") := by decide

theorem except_bind_ok {α β : Type} {e : Except PyErr α} {f : α → Except PyErr β} {b : β}
    (h : (e >>= f) = .ok b) : ∃ a, e = .ok a ∧ f a = .ok b := by
  cases e with
  | error er => exact Except.noConfusion (show Except.error er = Except.ok b from h)
  | ok a => exact ⟨a, rfl, h⟩

theorem except_pure_ok {α : Type} {x y : α} (h : (pure x : Except PyErr α) = .ok y) : x = y :=
  Except.ok.inj h

/-- C9 (amended): file-handle lifecycle.  `write_file` closes its handle
exactly when `write_transient` succeeds (the `f_str.close()` of line 171 is
skipped when an exception propagates), and `load` never closes the handle
it opens: every successful load exits with the handle it opened (when `f`
was a filename) still open, since no `close()` call exists in `load`. -/
theorem strC9_amended :
    (∀ p : StrPkg, ((writeFile p).1.isOk = true) ↔ ((writeFile p).2 = true)) ∧
    (∀ (env : LoadEnv) (out : LoadOut), loadCore env = .ok out →
      out.fileOpened = env.fromFile ∧ out.fileClosed = false) := by
  constructor
  · intro p
    unfold writeFile
    cases h : writeTransient p.dtype p.spd <;> simp [Except.isOk, Except.toBool]
  · intro env out h
    rw [loadCore] at h
    obtain ⟨hdr, -, h⟩ := except_bind_ok h
    obtain ⟨s0, -, h⟩ := except_bind_ok h
    obtain ⟨ds1, -, h⟩ := except_bind_ok h
    obtain ⟨d2, -, h⟩ := except_bind_ok h
    obtain ⟨pcat, -, h⟩ := except_bind_ok h
    obtain ⟨fin, -, h⟩ := except_bind_ok h
    have hx := except_pure_ok h
    subst hx
    exact ⟨rfl, rfl⟩

/-- A placeholder output used only to make the computed successful output
of the C9 witness a closed term. -/
def strOutDefault : LoadOut :=
  { spd := [], ds8 := [], ds9 := [], ds10 := [], npstr := 0, mxl := 0, mxacts := 0,
    nss := 0, ntrib := 0, ndiv := 0, icalc := 0, istcb1 := 0, istcb2 := 0, ipakcb := 0,
    constv := ⟨0, 0⟩, options := [], auxNames := [], returned := none,
    fileOpened := false, fileClosed := false }

/-- The output `loadCore` produces on the minimal input. -/
def strOutMinimal : LoadOut := ((loadCore strEnvMinimal).toOption).getD strOutDefault

/-- Witness for the amended C9: the minimal load (given a filename)
succeeds with the handle opened and not closed. -/
theorem strC9_witness :
    loadCore strEnvMinimal = .ok strOutMinimal ∧
    strOutMinimal.fileOpened = true ∧ strOutMinimal.fileClosed = false := by
  have hok : loadCore strEnvMinimal = .ok strOutMinimal := by decide
  have h2 := strC9_amended.2 strEnvMinimal strOutMinimal hok
  exact ⟨hok, h2.1, h2.2⟩

theorem addToDtype_ok_shape (ns : List String) : ∀ (d0 d : Dtype) (ty : FType),
    addToDtype d0 ns ty = .ok d → d = d0 ++ ns.map (fun n => (n, ty)) := by
  induction ns with
  | nil =>
    intro d0 d ty h
    unfold addToDtype at h
    cases h
    simp
  | cons nm rest ih =>
    intro d0 d ty h
    unfold addToDtype at h
    by_cases hdup : d0.any (fun p => pyLowerStr p.1 == pyLowerStr nm) = true
    · rw [if_pos hdup] at h; simp at h
    · rw [if_neg hdup] at h
      rw [ih (d0 ++ [(nm, ty)]) d ty h]
      simp

/-- C10 (amended): for every `ncells`, every grid topology and every
auxiliary-name list the schema extension accepts (no case-insensitive
duplicate of an existing or already-added field name — otherwise
`get_empty` fails with the schema error, see the counterexample),
`ModflowStr.get_empty` returns a record array of exactly `ncells` rows
whose dtype is the default schema of the topology extended by one float32
field per auxiliary name, with every field of every row holding the
sentinel `-1.0E+10`. -/
theorem strC10_get_empty_filled (ncells : Nat) (structured : Bool) (ns : List String)
    (d : Dtype) (h : addToDtype (getDefaultDtype structured) ns .f32 = .ok d) :
    getEmpty ncells (some ns) structured =
      .ok { dtype := d, rows := List.replicate ncells (d.map (fun p => sentinelFor p.2)) } ∧
    d = getDefaultDtype structured ++ ns.map (fun n => (n, FType.f32)) ∧
    (List.replicate ncells (d.map (fun p => sentinelFor p.2))).length = ncells := by
  refine ⟨?_, addToDtype_ok_shape ns _ d .f32 h, by simp⟩
  unfold getEmpty
  simp only [h]

/-- Witness for the amended C10: two rows with one auxiliary field `xx`. -/
theorem strC10_witness :
    addToDtype (getDefaultDtype true) ["xx"] .f32 =
      .ok (getDefaultDtype true ++ [("xx", FType.f32)]) ∧
    getEmpty 2 (some ["xx"]) true = .ok
      { dtype := getDefaultDtype true ++ [("xx", FType.f32)]
        rows := List.replicate 2
          ((getDefaultDtype true ++ [("xx", FType.f32)]).map (fun p => sentinelFor p.2)) } :=
  ⟨by decide,
   (strC10_get_empty_filled 2 true ["xx"] (getDefaultDtype true ++ [("xx", FType.f32)])
      (by decide)).1⟩
